import Mathlib

/-!
Shallow embedding of the AdStack fund-custody and dispute-arbitration
contracts (`src/contracts/escrow-manager.clar` and the dispute half of
`src/contracts/targeting-engine.clar`).

Principals and block times are modelled as `Nat`; `tx-sender` and
`stacks-block-time` are explicit arguments of every public function.
Clarity maps become functions into `Option`, except the append-style
release ledger, which is an association list so that the sum of stored
`Release` amounts is expressible.  A public function returns
`Except Err (result × state)`; a Clarity `asserts!` failure aborts the
whole call, so an error carries no state change.
-/

namespace AdStack

abbrev Principal := Nat

/-- Pointwise update of a partial map, the semantics of Clarity `map-set`. -/
def fupd {α β : Type} [DecidableEq α] (m : α → Option β) (k : α) (v : β) :
    α → Option β :=
  fun x => if x = k then some v else m x

/-- The value of a successful call, `none` on failure. -/
def exceptOk {ε α : Type} : Except ε α → Option α
  | .ok a => some a
  | .error _ => none

/-- The error of a failed call, `none` on success. -/
def exceptErr {ε α : Type} : Except ε α → Option ε
  | .ok _ => none
  | .error e => some e

/-! ## Escrow manager: data model (`escrow-manager.clar`) -/

def STATUS_ACTIVE : Nat := 1
def STATUS_RELEASED : Nat := 2
def STATUS_REFUNDED : Nat := 3
def STATUS_PARTIALLY_RELEASED : Nat := 4
def STATUS_EXPIRED : Nat := 5

def MILESTONE_PENDING : Nat := 1
def MILESTONE_COMPLETED : Nat := 2
def MILESTONE_FAILED : Nat := 3

/-- The error constants of `escrow-manager.clar`, `err u100` … `err u108`. -/
inductive EscrowErr where
  | ownerOnly
  | notFound
  | unauthorized
  | insufficientFunds
  | invalidStatus
  | milestoneIncomplete
  | escrowExpired
  | escrowActive
  | invalidAmount
deriving DecidableEq, Repr

/-- The numeric code each error constant is defined with in the source. -/
def EscrowErr.code : EscrowErr → Nat
  | .ownerOnly => 100
  | .notFound => 101
  | .unauthorized => 102
  | .insufficientFunds => 103
  | .invalidStatus => 104
  | .milestoneIncomplete => 105
  | .escrowExpired => 106
  | .escrowActive => 107
  | .invalidAmount => 108

structure EscrowAccount where
  campaignId : Nat
  depositor : Principal
  beneficiary : Principal
  amount : Nat
  releasedAmount : Nat
  status : Nat
  createdAt : Nat
  expiry : Nat
  requiresMilestones : Bool
deriving DecidableEq, Repr, Inhabited

structure Milestone where
  description : String
  amount : Nat
  status : Nat
  conditionHash : Option Nat
  deadline : Nat
  completedAt : Nat
deriving DecidableEq, Repr, Inhabited

structure MilestoneCount where
  total : Nat
  completed : Nat
deriving DecidableEq, Repr

structure Release where
  amount : Nat
  recipient : Principal
  reason : String
  releasedAt : Nat
deriving DecidableEq, Repr

structure PendingEscrows where
  totalLocked : Nat
  totalEscrowedOut : Nat
deriving DecidableEq, Repr

structure EscrowHistory where
  totalDeposited : Nat
  totalReceived : Nat
  totalRefunded : Nat
  escrowsCompleted : Nat
deriving DecidableEq, Repr

structure EscrowState where
  escrowNonce : Nat
  milestoneNonce : Nat
  minEscrowAmount : Nat
  maxEscrowDuration : Nat
  emergencyWithdrawalFee : Nat
  totalEscrowed : Nat
  escrowAccounts : Nat → Option EscrowAccount
  escrowMilestones : Nat × Nat → Option Milestone
  milestoneCount : Nat → Option MilestoneCount
  escrowReleases : List ((Nat × Nat) × Release)
  pendingEscrows : Principal → Option PendingEscrows
  escrowHistory : Principal → Option EscrowHistory

/-- Initial contract state: the `define-data-var` initial values and empty maps. -/
def initEscrowState : EscrowState where
  escrowNonce := 0
  milestoneNonce := 0
  minEscrowAmount := 100000
  maxEscrowDuration := 52560
  emergencyWithdrawalFee := 10
  totalEscrowed := 0
  escrowAccounts := fun _ => none
  escrowMilestones := fun _ => none
  milestoneCount := fun _ => none
  escrowReleases := []
  pendingEscrows := fun _ => none
  escrowHistory := fun _ => none

/-- `map-set` on the release ledger: overwrite the entry at the key when
present, append it otherwise. -/
def alSet {β : Type} (m : List ((Nat × Nat) × β)) (k : Nat × Nat) (v : β) :
    List ((Nat × Nat) × β) :=
  match m with
  | [] => [(k, v)]
  | p :: rest => if p.1 = k then (k, v) :: rest else p :: alSet rest k v

/-- Sum of the amounts of all `Release` records stored for an escrow. -/
def releaseSum (rels : List ((Nat × Nat) × Release)) (escrowId : Nat) : Nat :=
  match rels with
  | [] => 0
  | (k, r) :: rest => (if k.1 = escrowId then r.amount else 0) + releaseSum rest escrowId

/-- `calculate-emergency-fee`. -/
def calculateEmergencyFee (st : EscrowState) (amount : Nat) : Nat :=
  amount * st.emergencyWithdrawalFee / 100

/-- `update-user-pending`. -/
def updateUserPending (st : EscrowState) (user : Principal) (amount : Nat)
    (isDeposit : Bool) : EscrowState :=
  let pending := (st.pendingEscrows user).getD ⟨0, 0⟩
  let pending' : PendingEscrows :=
    if isDeposit then ⟨pending.totalLocked + amount, pending.totalEscrowedOut⟩
    else ⟨pending.totalLocked, pending.totalEscrowedOut + amount⟩
  { st with pendingEscrows := fupd st.pendingEscrows user pending' }

/-- `get-milestone-count` (defaults to zero counts). -/
def getMilestoneCount (st : EscrowState) (escrowId : Nat) : MilestoneCount :=
  (st.milestoneCount escrowId).getD ⟨0, 0⟩

/-! ## Escrow manager: public functions -/

/-- `create-escrow`. -/
def createEscrow (sender time campaignId : Nat) (beneficiary : Principal)
    (amount duration : Nat) (requiresMilestones : Bool) (st : EscrowState) :
    Except EscrowErr (Nat × EscrowState) :=
  let escrowId := st.escrowNonce + 1
  let expiry := time + duration
  if amount < st.minEscrowAmount then .error .invalidAmount
  else if st.maxEscrowDuration < duration then .error .invalidStatus
  else if sender = beneficiary then .error .unauthorized
  else
    let st1 : EscrowState := { st with
      escrowAccounts := fupd st.escrowAccounts escrowId
        { campaignId := campaignId
          depositor := sender
          beneficiary := beneficiary
          amount := amount
          releasedAmount := 0
          status := STATUS_ACTIVE
          createdAt := time
          expiry := expiry
          requiresMilestones := requiresMilestones }
      milestoneCount :=
        if requiresMilestones then fupd st.milestoneCount escrowId ⟨0, 0⟩
        else st.milestoneCount }
    let st2 := updateUserPending st1 sender amount true
    .ok (escrowId, { st2 with
      totalEscrowed := st2.totalEscrowed + amount
      escrowNonce := escrowId })

/-- `add-milestone`. -/
def addMilestone (sender time escrowId : Nat) (description : String)
    (amount deadline : Nat) (conditionHash : Option Nat) (st : EscrowState) :
    Except EscrowErr (Nat × EscrowState) :=
  match st.escrowAccounts escrowId with
  | none => .error .notFound
  | some escrow =>
    let countData := getMilestoneCount st escrowId
    let milestoneId := countData.total + 1
    if sender ≠ escrow.depositor then .error .unauthorized
    else if escrow.requiresMilestones = false then .error .invalidStatus
    else if escrow.status ≠ STATUS_ACTIVE then .error .invalidStatus
    else
      .ok (milestoneId, { st with
        escrowMilestones := fupd st.escrowMilestones (escrowId, milestoneId)
          { description := description
            amount := amount
            status := MILESTONE_PENDING
            conditionHash := conditionHash
            deadline := deadline
            completedAt := 0 }
        milestoneCount := fupd st.milestoneCount escrowId
          ⟨milestoneId, countData.completed⟩ })

/-- `complete-milestone`. -/
def completeMilestone (sender time escrowId milestoneId : Nat) (st : EscrowState) :
    Except EscrowErr (Bool × EscrowState) :=
  match st.escrowAccounts escrowId with
  | none => .error .notFound
  | some escrow =>
    match st.escrowMilestones (escrowId, milestoneId) with
    | none => .error .notFound
    | some milestone =>
      let countData := getMilestoneCount st escrowId
      if sender ≠ escrow.beneficiary then .error .unauthorized
      else if milestone.status ≠ MILESTONE_PENDING then .error .invalidStatus
      else
        .ok (true, { st with
          escrowMilestones := fupd st.escrowMilestones (escrowId, milestoneId)
            { milestone with status := MILESTONE_COMPLETED, completedAt := time }
          milestoneCount := fupd st.milestoneCount escrowId
            ⟨countData.total, countData.completed + 1⟩ })

/-- `release-funds`. -/
def releaseFunds (sender time escrowId amount : Nat) (reason : String)
    (st : EscrowState) : Except EscrowErr (Bool × EscrowState) :=
  match st.escrowAccounts escrowId with
  | none => .error .notFound
  | some escrow =>
    let available := escrow.amount - escrow.releasedAmount
    let releaseId := st.milestoneNonce + 1
    if sender ≠ escrow.depositor then .error .unauthorized
    else if escrow.status ≠ STATUS_ACTIVE then .error .invalidStatus
    else if available < amount then .error .insufficientFunds
    else
      let newReleased := escrow.releasedAmount + amount
      .ok (true, { st with
        escrowReleases := alSet st.escrowReleases (escrowId, releaseId)
          { amount := amount
            recipient := escrow.beneficiary
            reason := reason
            releasedAt := time }
        escrowAccounts := fupd st.escrowAccounts escrowId
          { escrow with
            releasedAmount := newReleased
            status := if newReleased = escrow.amount then STATUS_RELEASED
                      else STATUS_PARTIALLY_RELEASED }
        milestoneNonce := releaseId })

/-- `release-milestone-funds`.  Note: the source checks the milestone's
status and the remaining balance but never the escrow's own status. -/
def releaseMilestoneFunds (sender time escrowId milestoneId : Nat)
    (st : EscrowState) : Except EscrowErr (Bool × EscrowState) :=
  match st.escrowAccounts escrowId with
  | none => .error .notFound
  | some escrow =>
    match st.escrowMilestones (escrowId, milestoneId) with
    | none => .error .notFound
    | some milestone =>
      let available := escrow.amount - escrow.releasedAmount
      let releaseId := st.milestoneNonce + 1
      if sender ≠ escrow.depositor then .error .unauthorized
      else if milestone.status ≠ MILESTONE_COMPLETED then .error .milestoneIncomplete
      else if available < milestone.amount then .error .insufficientFunds
      else
        let newReleased := escrow.releasedAmount + milestone.amount
        .ok (true, { st with
          escrowReleases := alSet st.escrowReleases (escrowId, releaseId)
            { amount := milestone.amount
              recipient := escrow.beneficiary
              reason := milestone.description
              releasedAt := time }
          escrowAccounts := fupd st.escrowAccounts escrowId
            { escrow with
              releasedAmount := newReleased
              status := if newReleased = escrow.amount then STATUS_RELEASED
                        else STATUS_PARTIALLY_RELEASED }
          milestoneNonce := releaseId })

/-- `refund-escrow`. -/
def refundEscrow (sender time escrowId : Nat) (st : EscrowState) :
    Except EscrowErr (Nat × EscrowState) :=
  match st.escrowAccounts escrowId with
  | none => .error .notFound
  | some escrow =>
    let refundAmount := escrow.amount - escrow.releasedAmount
    if sender ≠ escrow.depositor then .error .unauthorized
    else if time < escrow.expiry then .error .escrowActive
    else if escrow.status = STATUS_ACTIVE ∨ escrow.status = STATUS_PARTIALLY_RELEASED then
      let history := (st.escrowHistory escrow.depositor).getD ⟨0, 0, 0, 0⟩
      .ok (refundAmount, { st with
        escrowAccounts := fupd st.escrowAccounts escrowId
          { escrow with status := STATUS_REFUNDED }
        escrowHistory := fupd st.escrowHistory escrow.depositor
          { history with totalRefunded := history.totalRefunded + refundAmount } })
    else .error .invalidStatus

/-- `emergency-withdrawal`. -/
def emergencyWithdrawal (sender time escrowId : Nat) (st : EscrowState) :
    Except EscrowErr (Nat × EscrowState) :=
  match st.escrowAccounts escrowId with
  | none => .error .notFound
  | some escrow =>
    let available := escrow.amount - escrow.releasedAmount
    let fee := calculateEmergencyFee st available
    let withdrawalAmount := available - fee
    if sender ≠ escrow.depositor then .error .unauthorized
    else if escrow.status ≠ STATUS_ACTIVE then .error .invalidStatus
    else
      .ok (withdrawalAmount, { st with
        escrowAccounts := fupd st.escrowAccounts escrowId
          { escrow with
            status := STATUS_REFUNDED
            releasedAmount := escrow.amount } })

/-- `extend-escrow-period`. -/
def extendEscrowPeriod (sender time escrowId additionalTime : Nat)
    (st : EscrowState) : Except EscrowErr (Bool × EscrowState) :=
  match st.escrowAccounts escrowId with
  | none => .error .notFound
  | some escrow =>
    if sender ≠ escrow.depositor then .error .unauthorized
    else if escrow.status ≠ STATUS_ACTIVE then .error .invalidStatus
    else
      .ok (true, { st with
        escrowAccounts := fupd st.escrowAccounts escrowId
          { escrow with expiry := escrow.expiry + additionalTime } })

/-! ## Escrow manager: operation traces -/

/-- A call of one of the escrow contract's public functions, with the
caller and the block time made explicit. -/
inductive EscrowOp where
  | createEscrow (sender time campaignId beneficiary amount duration : Nat)
      (requiresMilestones : Bool)
  | addMilestone (sender time escrowId : Nat) (description : String)
      (amount deadline : Nat) (conditionHash : Option Nat)
  | completeMilestone (sender time escrowId milestoneId : Nat)
  | releaseFunds (sender time escrowId amount : Nat) (reason : String)
  | releaseMilestoneFunds (sender time escrowId milestoneId : Nat)
  | refundEscrow (sender time escrowId : Nat)
  | emergencyWithdrawal (sender time escrowId : Nat)
  | extendEscrowPeriod (sender time escrowId additionalTime : Nat)

/-- Keep the new state of a successful call, the old state of a failed one. -/
def commitE {ε α : Type} (st : EscrowState) :
    Except ε (α × EscrowState) → EscrowState
  | .ok (_, st') => st'
  | .error _ => st

/-- Apply one public call to the contract state. -/
def applyEscrowOp (op : EscrowOp) (st : EscrowState) : EscrowState :=
  match op with
  | .createEscrow s t c b a d r => commitE st (createEscrow s t c b a d r st)
  | .addMilestone s t e d a dl ch => commitE st (addMilestone s t e d a dl ch st)
  | .completeMilestone s t e m => commitE st (completeMilestone s t e m st)
  | .releaseFunds s t e a r => commitE st (releaseFunds s t e a r st)
  | .releaseMilestoneFunds s t e m => commitE st (releaseMilestoneFunds s t e m st)
  | .refundEscrow s t e => commitE st (refundEscrow s t e st)
  | .emergencyWithdrawal s t e => commitE st (emergencyWithdrawal s t e st)
  | .extendEscrowPeriod s t e a => commitE st (extendEscrowPeriod s t e a st)

/-- Run a sequence of public calls from the freshly deployed contract. -/
def execEscrowOps (ops : List EscrowOp) : EscrowState :=
  ops.foldl (fun st op => applyEscrowOp op st) initEscrowState

/-- Whether a call is an `emergency-withdrawal` on the given escrow. -/
def isEmergencyWithdrawalOn (op : EscrowOp) (escrowId : Nat) : Bool :=
  match op with
  | .emergencyWithdrawal _ _ e => e = escrowId
  | _ => false

/-! ## Dispute registry: data model (dispute half of `targeting-engine.clar`) -/

/-- The deploying principal, `contract-owner` of the dispute contract. -/
def contractOwner : Principal := 0

def DISPUTE_OPEN : Nat := 1
def DISPUTE_UNDER_REVIEW : Nat := 2
def DISPUTE_RESOLVED : Nat := 3
def DISPUTE_APPEALED : Nat := 4
def DISPUTE_CLOSED : Nat := 5

def TYPE_PAYMENT : Nat := 1
def TYPE_FRAUD : Nat := 2
def TYPE_QUALITY : Nat := 3
def TYPE_CONTRACT_BREACH : Nat := 4

def OUTCOME_ADVERTISER_WINS : Nat := 1
def OUTCOME_PUBLISHER_WINS : Nat := 2
def OUTCOME_SPLIT : Nat := 3
def OUTCOME_DISMISSED : Nat := 4

/-- The error constants of the dispute contract, `err u100` … `err u108`. -/
inductive DisputeErr where
  | ownerOnly
  | notFound
  | unauthorized
  | invalidStatus
  | alreadyResolved
  | insufficientAmount
  | invalidParty
  | evidenceLimit
  | appealExpired
deriving DecidableEq, Repr

structure Dispute where
  campaignId : Nat
  advertiser : Principal
  publisher : Principal
  disputeType : Nat
  amount : Nat
  status : Nat
  description : String
  createdAt : Nat
  updatedAt : Nat
  resolutionDeadline : Nat
deriving DecidableEq, Repr, Inhabited

structure Evidence where
  submitter : Principal
  evidenceType : String
  evidenceHash : String
  description : String
  submittedAt : Nat
deriving DecidableEq, Repr

structure ArbitratorAssignment where
  arbitrator : Principal
  assignedAt : Nat
  decisionDeadline : Nat
deriving DecidableEq, Repr, Inhabited

structure ArbitratorVote where
  outcome : Nat
  reasoning : String
  votedAt : Nat
deriving DecidableEq, Repr, Inhabited

structure DisputeOutcome where
  outcome : Nat
  winner : Principal
  amountTransferred : Nat
  reasoning : String
  resolvedAt : Nat
  canAppeal : Bool
deriving DecidableEq, Repr, Inhabited

structure EvidenceCount where
  totalEvidence : Nat
deriving DecidableEq, Repr

structure DisputeHistory where
  totalDisputes : Nat
  disputesWon : Nat
  disputesLost : Nat
  reputationScore : Nat
deriving DecidableEq, Repr

structure ArbitratorStats where
  totalCases : Nat
  casesResolved : Nat
  reputation : Nat
  active : Bool
deriving DecidableEq, Repr, Inhabited

structure DisputeState where
  disputeNonce : Nat
  minDisputeAmount : Nat
  maxEvidencePerDispute : Nat
  arbitrationFeePercentage : Nat
  appealWindow : Nat
  autoResolveThreshold : Nat
  totalDisputesResolved : Nat
  disputes : Nat → Option Dispute
  evidenceSubmissions : Nat × Nat → Option Evidence
  arbitratorAssignments : Nat → Option ArbitratorAssignment
  arbitratorVotes : Nat × Principal → Option ArbitratorVote
  disputeOutcomes : Nat → Option DisputeOutcome
  evidenceCount : Nat → Option EvidenceCount
  disputeHistory : Principal → Option DisputeHistory
  arbitratorStats : Principal → Option ArbitratorStats

/-- Initial dispute-contract state: `define-data-var` initial values, empty maps. -/
def initDisputeState : DisputeState where
  disputeNonce := 0
  minDisputeAmount := 1000000
  maxEvidencePerDispute := 10
  arbitrationFeePercentage := 5
  appealWindow := 1440
  autoResolveThreshold := 100000
  totalDisputesResolved := 0
  disputes := fun _ => none
  evidenceSubmissions := fun _ => none
  arbitratorAssignments := fun _ => none
  arbitratorVotes := fun _ => none
  disputeOutcomes := fun _ => none
  evidenceCount := fun _ => none
  disputeHistory := fun _ => none
  arbitratorStats := fun _ => none

/-- `is-valid-dispute-type`. -/
def isValidDisputeType (disputeType : Nat) : Bool :=
  disputeType = TYPE_PAYMENT ∨ disputeType = TYPE_FRAUD ∨
  disputeType = TYPE_QUALITY ∨ disputeType = TYPE_CONTRACT_BREACH

/-- `is-valid-outcome`. -/
def isValidOutcome (outcome : Nat) : Bool :=
  outcome = OUTCOME_ADVERTISER_WINS ∨ outcome = OUTCOME_PUBLISHER_WINS ∨
  outcome = OUTCOME_SPLIT ∨ outcome = OUTCOME_DISMISSED

/-- `update-party-reputation`: bump win/loss counters and move the bounded
score by five, capped at one hundred on a win and floored at zero on a loss. -/
def updatePartyReputation (st : DisputeState) (party : Principal) (won : Bool) :
    DisputeState :=
  let history := (st.disputeHistory party).getD ⟨0, 0, 0, 100⟩
  let newScore : Nat :=
    if won then
      if 100 < history.reputationScore + 5 then 100 else history.reputationScore + 5
    else
      if 5 < history.reputationScore then history.reputationScore - 5 else 0
  let history' : DisputeHistory :=
    { totalDisputes := history.totalDisputes + 1
      disputesWon := if won then history.disputesWon + 1 else history.disputesWon
      disputesLost := if won then history.disputesLost else history.disputesLost + 1
      reputationScore := newScore }
  { st with disputeHistory := fupd st.disputeHistory party history' }

/-- `get-evidence-count` (defaults to zero). -/
def getEvidenceCount (st : DisputeState) (disputeId : Nat) : EvidenceCount :=
  (st.evidenceCount disputeId).getD ⟨0⟩

/-! ## Dispute registry: public functions -/

/-- `open-dispute`. -/
def openDispute (sender time campaignId : Nat) (otherParty : Principal)
    (disputeType amount : Nat) (description : String) (isAdvertiser : Bool)
    (st : DisputeState) : Except DisputeErr (Nat × DisputeState) :=
  let disputeId := st.disputeNonce + 1
  let advertiser := if isAdvertiser then sender else otherParty
  let publisher := if isAdvertiser then otherParty else sender
  let resolutionDeadline := time + 1440
  if isValidDisputeType disputeType = false then .error .invalidStatus
  else if amount < st.minDisputeAmount then .error .insufficientAmount
  else if sender = otherParty then .error .invalidParty
  else
    .ok (disputeId, { st with
      disputes := fupd st.disputes disputeId
        { campaignId := campaignId
          advertiser := advertiser
          publisher := publisher
          disputeType := disputeType
          amount := amount
          status := DISPUTE_OPEN
          description := description
          createdAt := time
          updatedAt := time
          resolutionDeadline := resolutionDeadline }
      evidenceCount := fupd st.evidenceCount disputeId ⟨0⟩
      disputeNonce := disputeId })

/-- `submit-evidence`. -/
def submitEvidence (sender time disputeId : Nat) (evidenceType evidenceHash
    description : String) (st : DisputeState) :
    Except DisputeErr (Nat × DisputeState) :=
  match st.disputes disputeId with
  | none => .error .notFound
  | some dispute =>
    let countData := getEvidenceCount st disputeId
    let evidenceId := countData.totalEvidence + 1
    if ¬(sender = dispute.advertiser ∨ sender = dispute.publisher) then
      .error .unauthorized
    else if st.maxEvidencePerDispute ≤ countData.totalEvidence then
      .error .evidenceLimit
    else if ¬(dispute.status = DISPUTE_OPEN ∨ dispute.status = DISPUTE_UNDER_REVIEW) then
      .error .invalidStatus
    else
      .ok (evidenceId, { st with
        evidenceSubmissions := fupd st.evidenceSubmissions (disputeId, evidenceId)
          { submitter := sender
            evidenceType := evidenceType
            evidenceHash := evidenceHash
            description := description
            submittedAt := time }
        evidenceCount := fupd st.evidenceCount disputeId ⟨evidenceId⟩ })

/-- `assign-arbitrator`. -/
def assignArbitrator (sender time disputeId : Nat) (arbitrator : Principal)
    (st : DisputeState) : Except DisputeErr (Bool × DisputeState) :=
  match st.disputes disputeId with
  | none => .error .notFound
  | some dispute =>
    let decisionDeadline := time + 720
    if sender ≠ contractOwner then .error .ownerOnly
    else if dispute.status ≠ DISPUTE_OPEN then .error .invalidStatus
    else
      let arbStats := (st.arbitratorStats arbitrator).getD ⟨0, 0, 100, true⟩
      .ok (true, { st with
        arbitratorAssignments := fupd st.arbitratorAssignments disputeId
          { arbitrator := arbitrator
            assignedAt := time
            decisionDeadline := decisionDeadline }
        disputes := fupd st.disputes disputeId
          { dispute with status := DISPUTE_UNDER_REVIEW, updatedAt := time }
        arbitratorStats := fupd st.arbitratorStats arbitrator
          { arbStats with totalCases := arbStats.totalCases + 1 } })

/-- `vote-on-dispute`. -/
def voteOnDispute (sender time disputeId outcome : Nat) (reasoning : String)
    (st : DisputeState) : Except DisputeErr (Bool × DisputeState) :=
  match st.disputes disputeId with
  | none => .error .notFound
  | some dispute =>
    match st.arbitratorAssignments disputeId with
    | none => .error .notFound
    | some assignment =>
      if sender ≠ assignment.arbitrator then .error .unauthorized
      else if dispute.status ≠ DISPUTE_UNDER_REVIEW then .error .invalidStatus
      else if isValidOutcome outcome = false then .error .invalidStatus
      else
        .ok (true, { st with
          arbitratorVotes := fupd st.arbitratorVotes (disputeId, sender)
            { outcome := outcome, reasoning := reasoning, votedAt := time } })

/-- `execute-ruling`. -/
def executeRuling (sender time disputeId : Nat) (st : DisputeState) :
    Except DisputeErr (Bool × DisputeState) :=
  match st.disputes disputeId with
  | none => .error .notFound
  | some dispute =>
    match st.arbitratorAssignments disputeId with
    | none => .error .notFound
    | some assignment =>
      match st.arbitratorVotes (disputeId, assignment.arbitrator) with
      | none => .error .notFound
      | some vote =>
        let outcome := vote.outcome
        let winner : Principal :=
          if outcome = OUTCOME_ADVERTISER_WINS then dispute.advertiser
          else if outcome = OUTCOME_PUBLISHER_WINS then dispute.publisher
          else contractOwner
        let transferAmount : Nat :=
          if outcome = OUTCOME_SPLIT then dispute.amount / 2 else dispute.amount
        if sender ≠ contractOwner then .error .ownerOnly
        else if dispute.status ≠ DISPUTE_UNDER_REVIEW then .error .invalidStatus
        else
          let st1 : DisputeState := { st with
            disputes := fupd st.disputes disputeId
              { dispute with status := DISPUTE_RESOLVED, updatedAt := time }
            disputeOutcomes := fupd st.disputeOutcomes disputeId
              { outcome := outcome
                winner := winner
                amountTransferred := transferAmount
                reasoning := vote.reasoning
                resolvedAt := time
                canAppeal := decide (st.autoResolveThreshold * 5 ≤ dispute.amount) } }
          let st2 := updatePartyReputation st1 dispute.advertiser
            (outcome = OUTCOME_ADVERTISER_WINS)
          let st3 := updatePartyReputation st2 dispute.publisher
            (outcome = OUTCOME_PUBLISHER_WINS)
          match st3.arbitratorStats assignment.arbitrator with
          | none => .error .notFound
          | some arbStats =>
            .ok (true, { st3 with
              arbitratorStats := fupd st3.arbitratorStats assignment.arbitrator
                { arbStats with casesResolved := arbStats.casesResolved + 1 }
              totalDisputesResolved := st3.totalDisputesResolved + 1 })

/-- `appeal-decision`.  Note: the source checks the recorded outcome and the
appeal window but never the dispute's current status. -/
def appealDecision (sender time disputeId : Nat) (reason : String)
    (st : DisputeState) : Except DisputeErr (Bool × DisputeState) :=
  match st.disputes disputeId with
  | none => .error .notFound
  | some dispute =>
    match st.disputeOutcomes disputeId with
    | none => .error .notFound
    | some outcome =>
      if ¬(sender = dispute.advertiser ∨ sender = dispute.publisher) then
        .error .unauthorized
      else if outcome.canAppeal = false then .error .invalidStatus
      else if ¬(time - outcome.resolvedAt < st.appealWindow) then
        .error .appealExpired
      else
        .ok (true, { st with
          disputes := fupd st.disputes disputeId
            { dispute with status := DISPUTE_APPEALED, updatedAt := time } })

/-- `auto-resolve-dispute`. -/
def autoResolveDispute (sender time disputeId : Nat) (st : DisputeState) :
    Except DisputeErr (Bool × DisputeState) :=
  match st.disputes disputeId with
  | none => .error .notFound
  | some dispute =>
    if st.autoResolveThreshold < dispute.amount then .error .insufficientAmount
    else if dispute.status ≠ DISPUTE_OPEN then .error .invalidStatus
    else
      .ok (true, { st with
        disputes := fupd st.disputes disputeId
          { dispute with status := DISPUTE_RESOLVED, updatedAt := time }
        disputeOutcomes := fupd st.disputeOutcomes disputeId
          { outcome := OUTCOME_SPLIT
            winner := contractOwner
            amountTransferred := dispute.amount / 2
            reasoning := "Auto-resolved: small claim split 50/50"
            resolvedAt := time
            canAppeal := false }
        totalDisputesResolved := st.totalDisputesResolved + 1 })

/-- `close-dispute`.  The source has no caller check at all. -/
def closeDispute (sender time disputeId : Nat) (st : DisputeState) :
    Except DisputeErr (Bool × DisputeState) :=
  match st.disputes disputeId with
  | none => .error .notFound
  | some dispute =>
    if dispute.status ≠ DISPUTE_RESOLVED then .error .invalidStatus
    else
      .ok (true, { st with
        disputes := fupd st.disputes disputeId
          { dispute with status := DISPUTE_CLOSED, updatedAt := time } })

/-! ## Dispute registry: operation traces -/

/-- A call of one of the dispute contract's public functions. -/
inductive DisputeOp where
  | openDispute (sender time campaignId otherParty disputeType amount : Nat)
      (description : String) (isAdvertiser : Bool)
  | submitEvidence (sender time disputeId : Nat)
      (evidenceType evidenceHash description : String)
  | assignArbitrator (sender time disputeId arbitrator : Nat)
  | voteOnDispute (sender time disputeId outcome : Nat) (reasoning : String)
  | executeRuling (sender time disputeId : Nat)
  | appealDecision (sender time disputeId : Nat) (reason : String)
  | autoResolveDispute (sender time disputeId : Nat)
  | closeDispute (sender time disputeId : Nat)

/-- Keep the new state of a successful call, the old state of a failed one. -/
def commitD {ε α : Type} (st : DisputeState) :
    Except ε (α × DisputeState) → DisputeState
  | .ok (_, st') => st'
  | .error _ => st

/-- Apply one public call to the dispute-contract state. -/
def applyDisputeOp (op : DisputeOp) (st : DisputeState) : DisputeState :=
  match op with
  | .openDispute s t c o dt a d ia => commitD st (openDispute s t c o dt a d ia st)
  | .submitEvidence s t d et eh de => commitD st (submitEvidence s t d et eh de st)
  | .assignArbitrator s t d a => commitD st (assignArbitrator s t d a st)
  | .voteOnDispute s t d o r => commitD st (voteOnDispute s t d o r st)
  | .executeRuling s t d => commitD st (executeRuling s t d st)
  | .appealDecision s t d r => commitD st (appealDecision s t d r st)
  | .autoResolveDispute s t d => commitD st (autoResolveDispute s t d st)
  | .closeDispute s t d => commitD st (closeDispute s t d st)

/-- Run a sequence of public calls from the freshly deployed dispute contract. -/
def execDisputeOps (ops : List DisputeOp) : DisputeState :=
  ops.foldl (fun st op => applyDisputeOp op st) initDisputeState

/-! ## Concrete traces used as counterexamples and witnesses -/

/-- Depositor `1` escrows 1000000 for beneficiary `2`, then emergency-withdraws:
the escrow ends fully drained with no `Release` record. -/
def emergencyTrace : List EscrowOp :=
  [ .createEscrow 1 0 1 2 1000000 100 false,
    .emergencyWithdrawal 1 1 1 ]

/-- Milestoned escrow of 1000000 with milestones of 600000 and 400000, both
completed; the first is released, then the escrow is refunded at expiry. -/
def refundedTrace : List EscrowOp :=
  [ .createEscrow 1 0 1 2 1000000 100 true,
    .addMilestone 1 0 1 "" 600000 50 none,
    .addMilestone 1 0 1 "" 400000 50 none,
    .completeMilestone 2 1 1 1,
    .completeMilestone 2 1 1 2,
    .releaseMilestoneFunds 1 2 1 1,
    .refundEscrow 1 100 1 ]

/-- `refundedTrace` followed by a milestone release on the refunded escrow. -/
def refundedThenReleaseTrace : List EscrowOp :=
  refundedTrace ++ [ .releaseMilestoneFunds 1 101 1 2 ]

/-- Escrow of 100000 released in full by a single `release-funds` call. -/
def fullyReleasedTrace : List EscrowOp :=
  [ .createEscrow 1 0 1 2 100000 0 false,
    .releaseFunds 1 0 1 100000 "" ]

/-- Escrow of 1000000 with a completed 600000 milestone released. -/
def partialTrace : List EscrowOp :=
  [ .createEscrow 1 0 1 2 1000000 100 true,
    .addMilestone 1 0 1 "" 600000 50 none,
    .completeMilestone 2 1 1 1,
    .releaseMilestoneFunds 1 2 1 1 ]

/-- Advertiser `1` opens a 2000000 dispute against publisher `2`; the owner
assigns arbitrator `3`, who votes PublisherWins. -/
def votedTrace : List DisputeOp :=
  [ .openDispute 1 0 1 2 1 2000000 "" true,
    .assignArbitrator 0 0 1 3,
    .voteOnDispute 3 1 1 2 "" ]

/-- `votedTrace` followed by the owner executing the ruling at time 2. -/
def resolvedTrace : List DisputeOp :=
  votedTrace ++ [ .executeRuling 0 2 1 ]

/-- `resolvedTrace` followed by an unrelated caller closing the dispute. -/
def closedTrace : List DisputeOp :=
  resolvedTrace ++ [ .closeDispute 7 3 1 ]

/-- `closedTrace` followed by the advertiser appealing inside the window. -/
def closedThenAppealTrace : List DisputeOp :=
  closedTrace ++ [ .appealDecision 1 10 1 "" ]

/-- Escrow of 1000000 whose single milestone of 2000000 is completed: a
milestone release must then fail for lack of funds. -/
def oversizedMilestoneTrace : List EscrowOp :=
  [ .createEscrow 1 0 1 2 1000000 100 true,
    .addMilestone 1 0 1 "" 2000000 50 none,
    .completeMilestone 2 1 1 1 ]

/-- Reputation gain of a winning party: five points, capped at one hundred. -/
def repWin (old : Nat) : Nat := min (old + 5) 100

/-- Reputation loss of a losing party: five points, floored at zero. -/
def repLose (old : Nat) : Nat := old - 5

/-- A party's current reputation score, one hundred for a fresh party. -/
def partyScore (st : DisputeState) (p : Principal) : Nat :=
  ((st.disputeHistory p).getD ⟨0, 0, 0, 100⟩).reputationScore

/-! ## Ledger invariants of the escrow contract -/

/-- State invariant of the escrow ledger: ids stay below the nonces, no
escrow is over-released, a Released escrow is fully drained, and the stored
releases of an escrow never add up to more than its released amount. -/
structure EscrowInv (st : EscrowState) : Prop where
  accNonce : ∀ eid e, st.escrowAccounts eid = some e → eid ≤ st.escrowNonce
  relBound : ∀ eid e, st.escrowAccounts eid = some e →
    e.releasedAmount ≤ e.amount
  relStatus : ∀ eid e, st.escrowAccounts eid = some e →
    e.status = STATUS_RELEASED → e.releasedAmount = e.amount
  sumLe : ∀ eid e, st.escrowAccounts eid = some e →
    releaseSum st.escrowReleases eid ≤ e.releasedAmount
  relKeys : ∀ p ∈ st.escrowReleases,
    p.1.1 ≤ st.escrowNonce ∧ p.1.2 ≤ st.milestoneNonce

/-- The stored releases of the escrow add up exactly to its released amount. -/
def sumEqAt (st : EscrowState) (eid : Nat) : Prop :=
  ∀ e, st.escrowAccounts eid = some e →
    releaseSum st.escrowReleases eid = e.releasedAmount

/-! ## Counterexamples found in the code -/

/-- C1 counterexample: after `emergencyTrace`, escrow 1 has
`releasedAmount = 1000000` while the sum of its stored `Release` amounts is 0,
so the claimed invariant "sum of Release.amount = releasedAmount" fails:
`emergency-withdrawal` drains `released-amount` without writing any `Release`
record. -/
theorem C1_sum_counterexample :
    ((execEscrowOps emergencyTrace).escrowAccounts 1).map
        EscrowAccount.releasedAmount = some 1000000 ∧
    releaseSum (execEscrowOps emergencyTrace).escrowReleases 1 = 0 := by
  decide

/-- C2 counterexample: after `emergencyTrace`, escrow 1 has
`releasedAmount = amount = 1000000` but status Refunded, not Released, so
"status = Released iff releasedAmount = amount" fails in the if direction. -/
theorem C2_status_counterexample :
    ((execEscrowOps emergencyTrace).escrowAccounts 1).map
        (fun e => (e.status, e.releasedAmount, e.amount))
      = some (STATUS_REFUNDED, 1000000, 1000000) ∧
    STATUS_REFUNDED ≠ STATUS_RELEASED := by
  decide

/-- C3: a Refunded escrow is not terminal.  After `refundedTrace` escrow 1 is
Refunded; the subsequent `release-milestone-funds` call on the remaining
completed milestone succeeds (no escrow-status check in the source) and moves
the escrow to Released, changing the status of a Refunded escrow. -/
theorem C3_refunded_escrow_released :
    ((execEscrowOps refundedTrace).escrowAccounts 1).map
        EscrowAccount.status = some STATUS_REFUNDED ∧
    exceptErr (releaseMilestoneFunds 1 101 1 2 (execEscrowOps refundedTrace))
      = none ∧
    ((execEscrowOps refundedThenReleaseTrace).escrowAccounts 1).map
        EscrowAccount.status = some STATUS_RELEASED ∧
    STATUS_REFUNDED ≠ STATUS_RELEASED := by
  decide

/-- C4: a Closed dispute is not terminal.  After `closedTrace` dispute 1 is
Closed; the advertiser's subsequent `appeal-decision` call succeeds (the
source never checks the dispute's status there) and moves the dispute to
Appealed, a transition out of Closed that does not fail InvalidState. -/
theorem C4_closed_dispute_appealed :
    ((execDisputeOps closedTrace).disputes 1).map Dispute.status
      = some DISPUTE_CLOSED ∧
    exceptErr (appealDecision 1 10 1 "" (execDisputeOps closedTrace)) = none ∧
    ((execDisputeOps closedThenAppealTrace).disputes 1).map Dispute.status
      = some DISPUTE_APPEALED ∧
    DISPUTE_CLOSED ≠ DISPUTE_APPEALED := by
  decide

/-- C9 counterexample: with a valid amount but `duration` one block past the
policy maximum, `create-escrow` fails with `err-invalid-status` (`err u104`),
the contract's generic wrong-state error, not a duration-specific error: no
InvalidDuration error exists among the contract's error constants
`err u100` … `err u108`. -/
theorem C9_duration_error_counterexample :
    exceptErr (createEscrow 1 0 1 2 100000 52561 false initEscrowState)
      = some .invalidStatus ∧
    EscrowErr.invalidStatus.code = 104 ∧
    EscrowErr.invalidStatus ≠ EscrowErr.invalidAmount := by
  decide

/-! ## Behaviour of single operations -/

/-- C6: `refund-escrow` called before expiry always fails, whatever the
escrow's status; called by the depositor at or after expiry on an Active or
PartiallyReleased escrow it succeeds, sets the status to Refunded and returns
the current unreleased balance `amount - releasedAmount`. -/
theorem C6_refund_escrow :
    (∀ (sender time escrowId : Nat) (st : EscrowState) (e : EscrowAccount),
       st.escrowAccounts escrowId = some e → time < e.expiry →
       exceptOk (refundEscrow sender time escrowId st) = none) ∧
    (∀ (sender time escrowId : Nat) (st : EscrowState) (e : EscrowAccount),
       st.escrowAccounts escrowId = some e → sender = e.depositor →
       e.expiry ≤ time →
       (e.status = STATUS_ACTIVE ∨ e.status = STATUS_PARTIALLY_RELEASED) →
       (exceptOk (refundEscrow sender time escrowId st)).map
           (fun p => (p.1, (p.2.escrowAccounts escrowId).map EscrowAccount.status))
         = some (e.amount - e.releasedAmount, some STATUS_REFUNDED)) := by
  constructor
  · intro sender time escrowId st e hacc hlt
    simp only [refundEscrow, hacc]
    by_cases hdep : sender = e.depositor
    · rw [if_neg (by simp [hdep]), if_pos hlt]
      rfl
    · rw [if_pos hdep]
      rfl
  · intro sender time escrowId st e hacc hdep hexp hstat
    simp only [refundEscrow, hacc]
    rw [if_neg (by simp [hdep]), if_neg (Nat.not_lt.mpr hexp), if_pos hstat]
    simp [exceptOk, fupd]

/-- C6 witness: on `partialTrace` (600000 of 1000000 released), refund before
expiry fails and refund at expiry by the depositor returns 400000 and marks
the escrow Refunded. -/
theorem C6_refund_escrow_witness :
    exceptOk (refundEscrow 1 50 1 (execEscrowOps partialTrace)) = none ∧
    (exceptOk (refundEscrow 1 100 1 (execEscrowOps partialTrace))).map
        (fun p => (p.1, (p.2.escrowAccounts 1).map EscrowAccount.status))
      = some (1000000 - 600000, some STATUS_REFUNDED) := by
  constructor
  · exact C6_refund_escrow.1 1 50 1 (execEscrowOps partialTrace)
      ((execEscrowOps partialTrace).escrowAccounts 1).get!
      (by decide) (by decide)
  · exact C6_refund_escrow.2 1 100 1 (execEscrowOps partialTrace)
      ((execEscrowOps partialTrace).escrowAccounts 1).get!
      (by decide) (by decide) (by decide) (by decide)

/-- C9 (amended): `create-escrow` fails `err-invalid-amount` when the amount
is below the policy minimum, `err-invalid-status` (the contract's InvalidState
code, `err u104`) when the duration exceeds the policy maximum,
`err-unauthorized` when the beneficiary equals the caller, and otherwise
succeeds returning the fresh id `escrow-nonce + 1`. -/
theorem C9_create_escrow_errors :
    (∀ (sender time cid ben amount dur : Nat) (rm : Bool) (st : EscrowState),
       amount < st.minEscrowAmount →
       createEscrow sender time cid ben amount dur rm st = .error .invalidAmount) ∧
    (∀ (sender time cid ben amount dur : Nat) (rm : Bool) (st : EscrowState),
       st.minEscrowAmount ≤ amount → st.maxEscrowDuration < dur →
       createEscrow sender time cid ben amount dur rm st = .error .invalidStatus) ∧
    (∀ (sender time cid ben amount dur : Nat) (rm : Bool) (st : EscrowState),
       st.minEscrowAmount ≤ amount → dur ≤ st.maxEscrowDuration → sender = ben →
       createEscrow sender time cid ben amount dur rm st = .error .unauthorized) ∧
    (∀ (sender time cid ben amount dur : Nat) (rm : Bool) (st : EscrowState),
       st.minEscrowAmount ≤ amount → dur ≤ st.maxEscrowDuration → sender ≠ ben →
       (exceptOk (createEscrow sender time cid ben amount dur rm st)).map
           Prod.fst = some (st.escrowNonce + 1)) := by
  refine ⟨?_, ?_, ?_, ?_⟩
  · intro sender time cid ben amount dur rm st hlt
    simp only [createEscrow]
    rw [if_pos hlt]
  · intro sender time cid ben amount dur rm st hmin hdur
    simp only [createEscrow]
    rw [if_neg (Nat.not_lt.mpr hmin), if_pos hdur]
  · intro sender time cid ben amount dur rm st hmin hdur heq
    simp only [createEscrow]
    rw [if_neg (Nat.not_lt.mpr hmin), if_neg (Nat.not_lt.mpr hdur), if_pos heq]
  · intro sender time cid ben amount dur rm st hmin hdur hne
    simp only [createEscrow]
    rw [if_neg (Nat.not_lt.mpr hmin), if_neg (Nat.not_lt.mpr hdur), if_neg hne]
    rfl

/-- C9 witness: the four branches at concrete inputs on the fresh contract. -/
theorem C9_create_escrow_errors_witness :
    createEscrow 1 0 1 2 99999 100 false initEscrowState
      = .error .invalidAmount ∧
    createEscrow 1 0 1 2 100000 52561 false initEscrowState
      = .error .invalidStatus ∧
    createEscrow 1 0 1 1 100000 100 false initEscrowState
      = .error .unauthorized ∧
    (exceptOk (createEscrow 1 0 1 2 100000 100 false initEscrowState)).map
        Prod.fst = some 1 := by
  refine ⟨?_, ?_, ?_, ?_⟩
  · exact C9_create_escrow_errors.1 1 0 1 2 99999 100 false initEscrowState
      (by decide)
  · exact C9_create_escrow_errors.2.1 1 0 1 2 100000 52561 false initEscrowState
      (by decide) (by decide)
  · exact C9_create_escrow_errors.2.2.1 1 0 1 1 100000 100 false initEscrowState
      (by decide) (by decide) rfl
  · exact C9_create_escrow_errors.2.2.2 1 0 1 2 100000 100 false initEscrowState
      (by decide) (by decide) (by decide)

/-- C10: `close-dispute` has no caller check: any principal closing a Resolved
dispute succeeds and the dispute's status becomes Closed. -/
theorem C10_close_dispute_any_caller (sender time disputeId : Nat)
    (st : DisputeState) (d : Dispute)
    (hd : st.disputes disputeId = some d)
    (hst : d.status = DISPUTE_RESOLVED) :
    (exceptOk (closeDispute sender time disputeId st)).map
        (fun p => (p.2.disputes disputeId).map Dispute.status)
      = some (some DISPUTE_CLOSED) := by
  simp only [closeDispute, hd]
  rw [if_neg (by simp [hst])]
  simp [exceptOk, fupd]

/-- C10 witness: principal 42, neither owner 0 nor party 1 or 2, closes the
resolved dispute of `resolvedTrace`. -/
theorem C10_close_dispute_any_caller_witness :
    (exceptOk (closeDispute 42 3 1 (execDisputeOps resolvedTrace))).map
        (fun p => (p.2.disputes 1).map Dispute.status)
      = some (some DISPUTE_CLOSED) :=
  C10_close_dispute_any_caller 42 3 1 (execDisputeOps resolvedTrace)
    ((execDisputeOps resolvedTrace).disputes 1).get! (by decide) (by decide)

/-- C8: `appeal-decision` succeeds only when the recorded outcome has
`can-appeal` set and the time elapsed since `resolved-at` is strictly below
the appeal window; for a party of the dispute with `can-appeal` set, an
appeal at elapsed time exactly equal to the window fails `err-appeal-expired`. -/
theorem C8_appeal_window :
    (∀ (sender time disputeId : Nat) (reason : String) (st : DisputeState),
       (exceptOk (appealDecision sender time disputeId reason st)).isSome = true →
       (st.disputeOutcomes disputeId).map
           (fun o => (o.canAppeal, decide (time - o.resolvedAt < st.appealWindow)))
         = some (true, true)) ∧
    (∀ (sender time disputeId : Nat) (reason : String) (st : DisputeState)
       (d : Dispute) (o : DisputeOutcome),
       st.disputes disputeId = some d →
       st.disputeOutcomes disputeId = some o →
       (sender = d.advertiser ∨ sender = d.publisher) →
       o.canAppeal = true →
       time - o.resolvedAt = st.appealWindow →
       appealDecision sender time disputeId reason st = .error .appealExpired) := by
  constructor
  · intro sender time disputeId reason st h
    unfold appealDecision at h
    cases hd : st.disputes disputeId with
    | none => simp [hd, exceptOk] at h
    | some d =>
      simp only [hd] at h
      cases ho : st.disputeOutcomes disputeId with
      | none => simp [ho, exceptOk] at h
      | some o =>
        simp only [ho] at h
        split at h
        · simp [exceptOk] at h
        rename_i hparty
        split at h
        · simp [exceptOk] at h
        rename_i hca
        split at h
        · simp [exceptOk] at h
        rename_i hwin
        rw [not_not] at hwin
        have hca2 : o.canAppeal = true := by
          cases hb : o.canAppeal
          · exact absurd hb hca
          · rfl
        simp [hca2, hwin]
  · intro sender time disputeId reason st d o hd ho hparty hca helapsed
    simp only [appealDecision, hd, ho]
    rw [if_neg (not_not_intro hparty), if_neg (by simp [hca]),
      if_pos (by rw [helapsed]; exact Nat.lt_irrefl _)]

theorem capped_add_eq_repWin (n : Nat) :
    (if 100 < n + 5 then 100 else n + 5) = repWin n := by
  unfold repWin
  split
  · omega
  · omega

theorem floored_sub_eq_repLose (n : Nat) :
    (if 5 < n then n - 5 else 0) = repLose n := by
  unfold repLose
  split
  · rfl
  · omega

/-- C7: `execute-ruling` by the platform owner on an UnderReview dispute whose
assigned arbitrator has voted succeeds; the dispute becomes Resolved; the
recorded outcome's winner and transferred amount follow the vote
(AdvertiserWins and PublisherWins take the full dispute amount, Split takes
`amount / 2` by integer division) with `can-appeal` exactly when the amount is
at least five times the auto-resolve threshold; the winning party's reputation
gains five capped at one hundred, the losing party's loses five floored at
zero; and the arbitrator's resolved-case count increments. -/
theorem C7_execute_ruling (time disputeId : Nat) (st : DisputeState)
    (d : Dispute) (asg : ArbitratorAssignment) (v : ArbitratorVote)
    (stats : ArbitratorStats)
    (hd : st.disputes disputeId = some d)
    (ha : st.arbitratorAssignments disputeId = some asg)
    (hv : st.arbitratorVotes (disputeId, asg.arbitrator) = some v)
    (hs : st.arbitratorStats asg.arbitrator = some stats)
    (hst : d.status = DISPUTE_UNDER_REVIEW)
    (hne : d.advertiser ≠ d.publisher) :
    (exceptOk (executeRuling contractOwner time disputeId st)).map
        (fun p => ((p.2.disputes disputeId).map Dispute.status,
          (p.2.disputeOutcomes disputeId).map
            (fun o => (o.winner, o.amountTransferred, o.canAppeal)),
          (p.2.disputeHistory d.advertiser).map DisputeHistory.reputationScore,
          (p.2.disputeHistory d.publisher).map DisputeHistory.reputationScore,
          (p.2.arbitratorStats asg.arbitrator).map ArbitratorStats.casesResolved))
      = some (some DISPUTE_RESOLVED,
          some ((if v.outcome = OUTCOME_ADVERTISER_WINS then d.advertiser
                 else if v.outcome = OUTCOME_PUBLISHER_WINS then d.publisher
                 else contractOwner),
                (if v.outcome = OUTCOME_SPLIT then d.amount / 2 else d.amount),
                decide (st.autoResolveThreshold * 5 ≤ d.amount)),
          some (if v.outcome = OUTCOME_ADVERTISER_WINS then
                  repWin (partyScore st d.advertiser)
                else repLose (partyScore st d.advertiser)),
          some (if v.outcome = OUTCOME_PUBLISHER_WINS then
                  repWin (partyScore st d.publisher)
                else repLose (partyScore st d.publisher)),
          some (stats.casesResolved + 1)) := by
  unfold executeRuling
  simp only [hd, ha, hv]
  rw [if_neg (by simp), if_neg (by simp [hst])]
  simp only [updatePartyReputation]
  simp only [hs]
  simp [exceptOk, fupd, hne, hne.symm, partyScore,
    capped_add_eq_repWin, floored_sub_eq_repLose]

/-- C7 witness: executing the PublisherWins ruling of `votedTrace` at time 2:
dispute Resolved, winner publisher 2 with the full 2000000 and `can-appeal`
set, advertiser 1 drops to 95, publisher 2 stays capped at 100, arbitrator 3
has one resolved case. -/
theorem C7_execute_ruling_witness :
    (exceptOk (executeRuling contractOwner 2 1 (execDisputeOps votedTrace))).map
        (fun p => ((p.2.disputes 1).map Dispute.status,
          (p.2.disputeOutcomes 1).map
            (fun o => (o.winner, o.amountTransferred, o.canAppeal)),
          (p.2.disputeHistory 1).map DisputeHistory.reputationScore,
          (p.2.disputeHistory 2).map DisputeHistory.reputationScore,
          (p.2.arbitratorStats 3).map ArbitratorStats.casesResolved))
      = some (some DISPUTE_RESOLVED, some (2, 2000000, true),
          some 95, some 100, some 1) := by
  have h := C7_execute_ruling 2 1 (execDisputeOps votedTrace)
    ((execDisputeOps votedTrace).disputes 1).get!
    ((execDisputeOps votedTrace).arbitratorAssignments 1).get!
    ((execDisputeOps votedTrace).arbitratorVotes (1, 3)).get!
    ((execDisputeOps votedTrace).arbitratorStats 3).get!
    (by decide) (by decide) (by decide) (by decide) (by decide) (by decide)
  exact h

/-- C8 witness: appealing the ruling of `resolvedTrace` (resolved at time 2,
window 1440, `can-appeal` true) succeeds at time 10; it fails
`err-appeal-expired` at time 1442, when exactly the window has elapsed. -/
theorem C8_appeal_window_witness :
    ((execDisputeOps resolvedTrace).disputeOutcomes 1).map
        (fun o => (o.canAppeal,
          decide (10 - o.resolvedAt < (execDisputeOps resolvedTrace).appealWindow)))
      = some (true, true) ∧
    appealDecision 1 1442 1 "" (execDisputeOps resolvedTrace)
      = .error .appealExpired := by
  constructor
  · exact C8_appeal_window.1 1 10 1 "" (execDisputeOps resolvedTrace) (by decide)
  · exact C8_appeal_window.2 1 1442 1 "" (execDisputeOps resolvedTrace)
      ((execDisputeOps resolvedTrace).disputes 1).get!
      ((execDisputeOps resolvedTrace).disputeOutcomes 1).get!
      (by decide) (by decide) (.inl (by decide)) (by decide) (by decide)


/-! ## Invariant preservation -/

theorem fupd_self {α β : Type} [DecidableEq α] (m : α → Option β) (k : α)
    (v : β) : fupd m k v k = some v := by
  simp [fupd]

theorem fupd_ne {α β : Type} [DecidableEq α] (m : α → Option β) (k x : α)
    (v : β) (h : x ≠ k) : fupd m k v x = m x := by
  simp [fupd, h]

theorem fupd_lookup {α β : Type} [DecidableEq α] {m : α → Option β} {k x : α}
    {v w : β} (h : fupd m k v x = some w) :
    (x = k ∧ w = v) ∨ (x ≠ k ∧ m x = some w) := by
  by_cases hx : x = k
  · subst hx
    rw [fupd_self] at h
    exact Or.inl ⟨rfl, (Option.some.inj h).symm⟩
  · exact Or.inr ⟨hx, by rwa [fupd_ne _ _ _ _ hx] at h⟩

theorem releaseSum_eq_zero {rels : List ((Nat × Nat) × Release)} {eid : Nat}
    (h : ∀ p ∈ rels, p.1.1 ≠ eid) : releaseSum rels eid = 0 := by
  induction rels with
  | nil => rfl
  | cons p rest ih =>
    obtain ⟨k, r⟩ := p
    have hk : k.1 ≠ eid := h (k, r) (List.mem_cons_self _ _)
    simp only [releaseSum, if_neg hk, Nat.zero_add]
    exact ih fun q hq => h q (List.mem_cons_of_mem _ hq)

theorem mem_alSet {β : Type} {rels : List ((Nat × Nat) × β)} {k : Nat × Nat}
    {v : β} {p : (Nat × Nat) × β} (hp : p ∈ alSet rels k v) :
    p = (k, v) ∨ p ∈ rels := by
  induction rels with
  | nil =>
    simp only [alSet, List.mem_singleton] at hp
    exact Or.inl hp
  | cons q rest ih =>
    simp only [alSet] at hp
    split at hp
    · rcases List.mem_cons.mp hp with h1 | h1
      · exact Or.inl h1
      · exact Or.inr (List.mem_cons_of_mem _ h1)
    · rcases List.mem_cons.mp hp with h1 | h1
      · exact Or.inr (h1 ▸ List.mem_cons_self _ _)
      · rcases ih h1 with h2 | h2
        · exact Or.inl h2
        · exact Or.inr (List.mem_cons_of_mem _ h2)

theorem releaseSum_alSet_fresh {rels : List ((Nat × Nat) × Release)}
    {k : Nat × Nat} {v : Release} {eid : Nat}
    (hfresh : ∀ p ∈ rels, p.1 ≠ k) :
    releaseSum (alSet rels k v) eid
      = releaseSum rels eid + (if k.1 = eid then v.amount else 0) := by
  induction rels with
  | nil => simp [alSet, releaseSum]
  | cons q rest ih =>
    obtain ⟨qk, qv⟩ := q
    have hq : qk ≠ k := hfresh (qk, qv) (List.mem_cons_self _ _)
    simp only [alSet, if_neg hq, releaseSum]
    rw [ih fun p hp => hfresh p (List.mem_cons_of_mem _ hp)]
    omega

theorem escrowInv_frame {st st' : EscrowState} (h : EscrowInv st)
    (hacc : st'.escrowAccounts = st.escrowAccounts)
    (hrels : st'.escrowReleases = st.escrowReleases)
    (hnon : st'.escrowNonce = st.escrowNonce)
    (hmn : st'.milestoneNonce = st.milestoneNonce) : EscrowInv st' := by
  constructor
  · intro eid e he
    rw [hacc] at he
    rw [hnon]
    exact h.accNonce eid e he
  · intro eid e he
    rw [hacc] at he
    exact h.relBound eid e he
  · intro eid e he
    rw [hacc] at he
    exact h.relStatus eid e he
  · intro eid e he
    rw [hacc] at he
    rw [hrels]
    exact h.sumLe eid e he
  · intro p hp
    rw [hrels] at hp
    rw [hnon, hmn]
    exact h.relKeys p hp

theorem escrowInv_insert {st st' : EscrowState} (h : EscrowInv st)
    (e' : EscrowAccount)
    (hacc' : st'.escrowAccounts = fupd st.escrowAccounts (st.escrowNonce + 1) e')
    (hrels : st'.escrowReleases = st.escrowReleases)
    (hnon : st'.escrowNonce = st.escrowNonce + 1)
    (hmn : st'.milestoneNonce = st.milestoneNonce)
    (hrel0 : e'.releasedAmount = 0)
    (hst : e'.status = STATUS_ACTIVE) : EscrowInv st' := by
  constructor
  · intro x a hx
    rw [hacc'] at hx
    rw [hnon]
    rcases fupd_lookup hx with ⟨rfl, rfl⟩ | ⟨hne, hx'⟩
    · exact Nat.le_refl _
    · have := h.accNonce x a hx'
      omega
  · intro x a hx
    rw [hacc'] at hx
    rcases fupd_lookup hx with ⟨rfl, rfl⟩ | ⟨hne, hx'⟩
    · rw [hrel0]
      exact Nat.zero_le _
    · exact h.relBound x a hx'
  · intro x a hx hs
    rw [hacc'] at hx
    rcases fupd_lookup hx with ⟨rfl, rfl⟩ | ⟨hne, hx'⟩
    · rw [hst] at hs
      exact absurd hs (by decide)
    · exact h.relStatus x a hx' hs
  · intro x a hx
    rw [hacc'] at hx
    rw [hrels]
    rcases fupd_lookup hx with ⟨rfl, rfl⟩ | ⟨hne, hx'⟩
    · rw [releaseSum_eq_zero fun p hp => by have := (h.relKeys p hp).1; omega]
      exact Nat.zero_le _
    · exact h.sumLe x a hx'
  · intro p hp
    rw [hrels] at hp
    rw [hnon, hmn]
    have := h.relKeys p hp
    omega

theorem escrowInv_update {st st' : EscrowState} (h : EscrowInv st) (eid : Nat)
    (e e' : EscrowAccount)
    (hacc : st.escrowAccounts eid = some e)
    (hacc' : st'.escrowAccounts = fupd st.escrowAccounts eid e')
    (hrels : st'.escrowReleases = st.escrowReleases)
    (hnon : st'.escrowNonce = st.escrowNonce)
    (hmn : st'.milestoneNonce = st.milestoneNonce)
    (hb : e'.releasedAmount ≤ e'.amount)
    (hstat : e'.status = STATUS_RELEASED → e'.releasedAmount = e'.amount)
    (hsum : releaseSum st.escrowReleases eid ≤ e'.releasedAmount) :
    EscrowInv st' := by
  constructor
  · intro x a hx
    rw [hacc'] at hx
    rw [hnon]
    rcases fupd_lookup hx with ⟨rfl, rfl⟩ | ⟨hne, hx'⟩
    · exact h.accNonce _ e hacc
    · exact h.accNonce x a hx'
  · intro x a hx
    rw [hacc'] at hx
    rcases fupd_lookup hx with ⟨rfl, rfl⟩ | ⟨hne, hx'⟩
    · exact hb
    · exact h.relBound x a hx'
  · intro x a hx hs
    rw [hacc'] at hx
    rcases fupd_lookup hx with ⟨rfl, rfl⟩ | ⟨hne, hx'⟩
    · exact hstat hs
    · exact h.relStatus x a hx' hs
  · intro x a hx
    rw [hacc'] at hx
    rw [hrels]
    rcases fupd_lookup hx with ⟨rfl, rfl⟩ | ⟨hne, hx'⟩
    · exact hsum
    · exact h.sumLe x a hx'
  · intro p hp
    rw [hrels] at hp
    rw [hnon, hmn]
    exact h.relKeys p hp

theorem escrowInv_release {st st' : EscrowState} (h : EscrowInv st) (eid : Nat)
    (e : EscrowAccount) (amt : Nat) (rel : Release)
    (hacc : st.escrowAccounts eid = some e)
    (hamt : amt ≤ e.amount - e.releasedAmount)
    (hrelamt : rel.amount = amt)
    (hacc' : st'.escrowAccounts = fupd st.escrowAccounts eid
      { e with releasedAmount := e.releasedAmount + amt,
               status := if e.releasedAmount + amt = e.amount then STATUS_RELEASED
                         else STATUS_PARTIALLY_RELEASED })
    (hrels : st'.escrowReleases
      = alSet st.escrowReleases (eid, st.milestoneNonce + 1) rel)
    (hnon : st'.escrowNonce = st.escrowNonce)
    (hmn : st'.milestoneNonce = st.milestoneNonce + 1) : EscrowInv st' := by
  have hbound := h.relBound eid e hacc
  have hfresh : ∀ p ∈ st.escrowReleases, p.1 ≠ (eid, st.milestoneNonce + 1) := by
    intro p hp hk
    have h2 := (h.relKeys p hp).2
    rw [hk] at h2
    omega
  constructor
  · intro x a hx
    rw [hacc'] at hx
    rw [hnon]
    rcases fupd_lookup hx with ⟨rfl, rfl⟩ | ⟨hne, hx'⟩
    · exact h.accNonce _ e hacc
    · exact h.accNonce x a hx'
  · intro x a hx
    rw [hacc'] at hx
    rcases fupd_lookup hx with ⟨rfl, rfl⟩ | ⟨hne, hx'⟩
    · change e.releasedAmount + amt ≤ e.amount
      omega
    · exact h.relBound x a hx'
  · intro x a hx hs
    rw [hacc'] at hx
    rcases fupd_lookup hx with ⟨rfl, rfl⟩ | ⟨hne, hx'⟩
    · change (if e.releasedAmount + amt = e.amount then STATUS_RELEASED
        else STATUS_PARTIALLY_RELEASED) = STATUS_RELEASED at hs
      change e.releasedAmount + amt = e.amount
      by_cases hfull : e.releasedAmount + amt = e.amount
      · exact hfull
      · rw [if_neg hfull] at hs
        exact absurd hs (by decide)
    · exact h.relStatus x a hx' hs
  · intro x a hx
    rw [hacc'] at hx
    rw [hrels, releaseSum_alSet_fresh hfresh]
    rcases fupd_lookup hx with ⟨rfl, rfl⟩ | ⟨hne, hx'⟩
    · rw [if_pos rfl]
      have hsum := h.sumLe _ e hacc
      change releaseSum st.escrowReleases _ + rel.amount
        ≤ e.releasedAmount + amt
      omega
    · rw [if_neg fun hc => hne hc.symm, Nat.add_zero]
      exact h.sumLe x a hx'
  · intro p hp
    rw [hrels] at hp
    rw [hnon, hmn]
    rcases mem_alSet hp with rfl | hp'
    · exact ⟨h.accNonce _ e hacc, Nat.le_refl _⟩
    · have := h.relKeys p hp'
      omega

theorem escrowInv_applyOp {st : EscrowState} (h : EscrowInv st) (op : EscrowOp) :
    EscrowInv (applyEscrowOp op st) := by
  cases op with
  | createEscrow s t c b a dur rm =>
    simp only [applyEscrowOp, createEscrow]
    split
    · exact h
    split
    · exact h
    split
    · exact h
    exact escrowInv_insert h _ rfl rfl rfl rfl rfl rfl
  | addMilestone s t eid desc a dl ch =>
    simp only [applyEscrowOp, addMilestone]
    split
    · exact h
    split
    · exact h
    split
    · exact h
    split
    · exact h
    exact escrowInv_frame h rfl rfl rfl rfl
  | completeMilestone s t eid mid =>
    simp only [applyEscrowOp, completeMilestone]
    split
    · exact h
    split
    · exact h
    split
    · exact h
    split
    · exact h
    exact escrowInv_frame h rfl rfl rfl rfl
  | releaseFunds s t eid amt reason =>
    simp only [applyEscrowOp, releaseFunds]
    split
    · exact h
    rename_i escrow heq
    split
    · exact h
    split
    · exact h
    split
    · exact h
    rename_i hdep hstat hav
    exact escrowInv_release h eid escrow amt _ heq (by omega) rfl rfl rfl rfl rfl
  | releaseMilestoneFunds s t eid mid =>
    simp only [applyEscrowOp, releaseMilestoneFunds]
    split
    · exact h
    rename_i escrow heq
    split
    · exact h
    rename_i milestone hmeq
    split
    · exact h
    split
    · exact h
    split
    · exact h
    rename_i hdep hstat hav
    exact escrowInv_release h eid escrow milestone.amount _ heq (by omega)
      rfl rfl rfl rfl rfl
  | refundEscrow s t eid =>
    simp only [applyEscrowOp, refundEscrow]
    split
    · exact h
    rename_i escrow heq
    split
    · exact h
    split
    · exact h
    split
    · exact escrowInv_update h eid escrow _ heq rfl rfl rfl rfl
        (h.relBound eid escrow heq)
        (fun hs => absurd (show STATUS_REFUNDED = STATUS_RELEASED from hs)
          (by decide))
        (h.sumLe eid escrow heq)
    · exact h
  | emergencyWithdrawal s t eid =>
    simp only [applyEscrowOp, emergencyWithdrawal]
    split
    · exact h
    rename_i escrow heq
    split
    · exact h
    split
    · exact h
    exact escrowInv_update h eid escrow _ heq rfl rfl rfl rfl
      (Nat.le_refl _) (fun _ => rfl)
      (Nat.le_trans (h.sumLe eid escrow heq) (h.relBound eid escrow heq))
  | extendEscrowPeriod s t eid extra =>
    simp only [applyEscrowOp, extendEscrowPeriod]
    split
    · exact h
    rename_i escrow heq
    split
    · exact h
    split
    · exact h
    exact escrowInv_update h eid escrow _ heq rfl rfl rfl rfl
      (h.relBound eid escrow heq)
      (h.relStatus eid escrow heq)
      (h.sumLe eid escrow heq)

theorem escrowInv_init : EscrowInv initEscrowState := by
  constructor
  · intro eid e he
    simp [initEscrowState] at he
  · intro eid e he
    simp [initEscrowState] at he
  · intro eid e he
    simp [initEscrowState] at he
  · intro eid e he
    simp [initEscrowState] at he
  · intro p hp
    simp [initEscrowState] at hp


theorem sumEqAt_init (eid : Nat) : sumEqAt initEscrowState eid := by
  intro e he
  simp [initEscrowState] at he

theorem sumEqAt_applyOp {st : EscrowState} {eid : Nat} (hin : EscrowInv st)
    (hs : sumEqAt st eid) (op : EscrowOp)
    (hop : isEmergencyWithdrawalOn op eid = false) :
    sumEqAt (applyEscrowOp op st) eid := by
  cases op with
  | createEscrow s t c b a dur rm =>
    simp only [applyEscrowOp, createEscrow]
    split
    · exact hs
    split
    · exact hs
    split
    · exact hs
    intro e he
    rcases fupd_lookup (show fupd st.escrowAccounts (st.escrowNonce + 1) _ eid
        = some e from he) with ⟨rfl, rfl⟩ | ⟨hne, hx'⟩
    · change releaseSum st.escrowReleases _ = 0
      exact releaseSum_eq_zero fun p hp => by
        have := (hin.relKeys p hp).1
        omega
    · change releaseSum st.escrowReleases eid = e.releasedAmount
      exact hs e hx'
  | addMilestone s t eid2 desc a dl ch =>
    simp only [applyEscrowOp, addMilestone]
    split
    · exact hs
    split
    · exact hs
    split
    · exact hs
    split
    · exact hs
    exact hs
  | completeMilestone s t eid2 mid =>
    simp only [applyEscrowOp, completeMilestone]
    split
    · exact hs
    split
    · exact hs
    split
    · exact hs
    split
    · exact hs
    exact hs
  | releaseFunds s t eid2 amt reason =>
    simp only [applyEscrowOp, releaseFunds]
    split
    · exact hs
    rename_i escrow heq
    split
    · exact hs
    split
    · exact hs
    split
    · exact hs
    intro e he
    have hfresh : ∀ p ∈ st.escrowReleases,
        p.1 ≠ (eid2, st.milestoneNonce + 1) := by
      intro p hp hk
      have h2 := (hin.relKeys p hp).2
      rw [hk] at h2
      omega
    change releaseSum (alSet st.escrowReleases (eid2, st.milestoneNonce + 1) _) eid
      = e.releasedAmount
    rw [releaseSum_alSet_fresh hfresh]
    rcases fupd_lookup (show fupd st.escrowAccounts eid2 _ eid = some e from he)
      with ⟨rfl, rfl⟩ | ⟨hne, hx'⟩
    · rw [if_pos rfl]
      have hsum := hs escrow heq
      change releaseSum st.escrowReleases _ + amt = escrow.releasedAmount + amt
      omega
    · rw [if_neg fun hc => hne hc.symm, Nat.add_zero]
      exact hs e hx'
  | releaseMilestoneFunds s t eid2 mid =>
    simp only [applyEscrowOp, releaseMilestoneFunds]
    split
    · exact hs
    rename_i escrow heq
    split
    · exact hs
    rename_i milestone hmeq
    split
    · exact hs
    split
    · exact hs
    split
    · exact hs
    intro e he
    have hfresh : ∀ p ∈ st.escrowReleases,
        p.1 ≠ (eid2, st.milestoneNonce + 1) := by
      intro p hp hk
      have h2 := (hin.relKeys p hp).2
      rw [hk] at h2
      omega
    change releaseSum (alSet st.escrowReleases (eid2, st.milestoneNonce + 1) _) eid
      = e.releasedAmount
    rw [releaseSum_alSet_fresh hfresh]
    rcases fupd_lookup (show fupd st.escrowAccounts eid2 _ eid = some e from he)
      with ⟨rfl, rfl⟩ | ⟨hne, hx'⟩
    · rw [if_pos rfl]
      have hsum := hs escrow heq
      change releaseSum st.escrowReleases _ + milestone.amount
        = escrow.releasedAmount + milestone.amount
      omega
    · rw [if_neg fun hc => hne hc.symm, Nat.add_zero]
      exact hs e hx'
  | refundEscrow s t eid2 =>
    simp only [applyEscrowOp, refundEscrow]
    split
    · exact hs
    rename_i escrow heq
    split
    · exact hs
    split
    · exact hs
    split
    · intro e he
      rcases fupd_lookup (show fupd st.escrowAccounts eid2 _ eid = some e from he)
        with ⟨rfl, rfl⟩ | ⟨hne, hx'⟩
      · change releaseSum st.escrowReleases _ = escrow.releasedAmount
        exact hs escrow heq
      · change releaseSum st.escrowReleases eid = e.releasedAmount
        exact hs e hx'
    · exact hs
  | emergencyWithdrawal s t eid2 =>
    simp only [isEmergencyWithdrawalOn, decide_eq_false_iff_not] at hop
    simp only [applyEscrowOp, emergencyWithdrawal]
    split
    · exact hs
    rename_i escrow heq
    split
    · exact hs
    split
    · exact hs
    intro e he
    rcases fupd_lookup (show fupd st.escrowAccounts eid2 _ eid = some e from he)
      with ⟨heid, rfl⟩ | ⟨hne, hx'⟩
    · exact absurd heid.symm hop
    · change releaseSum st.escrowReleases eid = e.releasedAmount
      exact hs e hx'
  | extendEscrowPeriod s t eid2 extra =>
    simp only [applyEscrowOp, extendEscrowPeriod]
    split
    · exact hs
    rename_i escrow heq
    split
    · exact hs
    split
    · exact hs
    intro e he
    rcases fupd_lookup (show fupd st.escrowAccounts eid2 _ eid = some e from he)
      with ⟨rfl, rfl⟩ | ⟨hne, hx'⟩
    · change releaseSum st.escrowReleases _ = escrow.releasedAmount
      exact hs escrow heq
    · change releaseSum st.escrowReleases eid = e.releasedAmount
      exact hs e hx'

theorem escrowInv_foldl (ops : List EscrowOp) :
    ∀ st : EscrowState, EscrowInv st →
      EscrowInv (ops.foldl (fun s op => applyEscrowOp op s) st) := by
  induction ops with
  | nil => exact fun st h => h
  | cons op rest ih =>
    intro st h
    exact ih _ (escrowInv_applyOp h op)

theorem escrowInv_exec (ops : List EscrowOp) : EscrowInv (execEscrowOps ops) :=
  escrowInv_foldl ops initEscrowState escrowInv_init

theorem sumEqAt_foldl (ops : List EscrowOp) (eid : Nat) :
    ∀ st : EscrowState, EscrowInv st → sumEqAt st eid →
      (∀ op ∈ ops, isEmergencyWithdrawalOn op eid = false) →
      sumEqAt (ops.foldl (fun s op => applyEscrowOp op s) st) eid := by
  induction ops with
  | nil => exact fun st _ h2 _ => h2
  | cons op rest ih =>
    intro st h1 h2 hall
    exact ih _ (escrowInv_applyOp h1 op)
      (sumEqAt_applyOp h1 h2 op (hall op (List.mem_cons_self _ _)))
      fun o ho => hall o (List.mem_cons_of_mem _ ho)


/-! ## Trace-level claims -/

/-- C1 (amended): for every escrow at every reachable state, the sum of the
amounts of its stored `Release` records is at most its `releasedAmount`, with
equality whenever no `emergency-withdrawal` on that escrow occurs in the
history; `emergency-withdrawal` alone breaks the equality, draining
`releasedAmount` without writing a `Release` record. -/
theorem C1_release_sum (ops : List EscrowOp) (eid : Nat) (e : EscrowAccount)
    (he : (execEscrowOps ops).escrowAccounts eid = some e) :
    releaseSum (execEscrowOps ops).escrowReleases eid ≤ e.releasedAmount ∧
    ((∀ op ∈ ops, isEmergencyWithdrawalOn op eid = false) →
      releaseSum (execEscrowOps ops).escrowReleases eid = e.releasedAmount) := by
  constructor
  · exact (escrowInv_exec ops).sumLe eid e he
  · intro hall
    exact sumEqAt_foldl ops eid initEscrowState escrowInv_init
      (sumEqAt_init eid) hall e he

/-- C1 witness: on `fullyReleasedTrace`, which contains no emergency
withdrawal, the release sum of escrow 1 equals its released amount 100000. -/
theorem C1_release_sum_witness :
    releaseSum (execEscrowOps fullyReleasedTrace).escrowReleases 1 ≤ 100000 ∧
    releaseSum (execEscrowOps fullyReleasedTrace).escrowReleases 1 = 100000 := by
  have h := C1_release_sum fullyReleasedTrace 1
    ((execEscrowOps fullyReleasedTrace).escrowAccounts 1).get! (by decide)
  exact ⟨h.1, h.2 (by decide)⟩

/-- C2 (amended): after every sequence of operations, an escrow whose status
is Released has `releasedAmount = amount`; the converse direction of the
claimed biconditional fails, because `emergency-withdrawal` sets
`releasedAmount = amount` while marking the escrow Refunded. -/
theorem C2_released_means_drained (ops : List EscrowOp) (eid : Nat)
    (e : EscrowAccount)
    (he : (execEscrowOps ops).escrowAccounts eid = some e)
    (hst : e.status = STATUS_RELEASED) : e.releasedAmount = e.amount :=
  (escrowInv_exec ops).relStatus eid e he hst

/-- C2 witness: escrow 1 of `fullyReleasedTrace` is Released and indeed has
`releasedAmount = amount`. -/
theorem C2_released_means_drained_witness :
    ((execEscrowOps fullyReleasedTrace).escrowAccounts 1).get!.releasedAmount
      = ((execEscrowOps fullyReleasedTrace).escrowAccounts 1).get!.amount :=
  C2_released_means_drained fullyReleasedTrace 1
    ((execEscrowOps fullyReleasedTrace).escrowAccounts 1).get!
    (by decide) (by decide)

/-- C5: after every sequence of operations every escrow satisfies
`releasedAmount ≤ amount` (`0 ≤ releasedAmount` holds by the `uint` type); in
particular no sequence of milestone releases overshoots, and any
`release-milestone-funds` call by the depositor on a Completed milestone
whose amount exceeds the remaining balance fails `err-insufficient-funds`. -/
theorem C5_released_within_bounds :
    (∀ (ops : List EscrowOp) (eid : Nat) (e : EscrowAccount),
       (execEscrowOps ops).escrowAccounts eid = some e →
       e.releasedAmount ≤ e.amount) ∧
    (∀ (sender time eid mid : Nat) (st : EscrowState) (e : EscrowAccount)
       (ms : Milestone),
       st.escrowAccounts eid = some e →
       st.escrowMilestones (eid, mid) = some ms →
       sender = e.depositor → ms.status = MILESTONE_COMPLETED →
       e.amount - e.releasedAmount < ms.amount →
       releaseMilestoneFunds sender time eid mid st
         = .error .insufficientFunds) := by
  constructor
  · intro ops eid e he
    exact (escrowInv_exec ops).relBound eid e he
  · intro sender time eid mid st e ms hacc hms hdep hcomp hlt
    simp only [releaseMilestoneFunds, hacc, hms]
    rw [if_neg (by simp [hdep]), if_neg (by simp [hcomp]), if_pos hlt]

/-- C5 witness: escrow 1 of `partialTrace` has 600000 ≤ 1000000, and on
`oversizedMilestoneTrace` releasing the completed 2000000 milestone from the
1000000 escrow fails `err-insufficient-funds`. -/
theorem C5_released_within_bounds_witness :
    ((execEscrowOps partialTrace).escrowAccounts 1).get!.releasedAmount
      ≤ ((execEscrowOps partialTrace).escrowAccounts 1).get!.amount ∧
    releaseMilestoneFunds 1 2 1 1 (execEscrowOps oversizedMilestoneTrace)
      = .error .insufficientFunds := by
  constructor
  · exact C5_released_within_bounds.1 partialTrace 1
      ((execEscrowOps partialTrace).escrowAccounts 1).get! (by decide)
  · exact C5_released_within_bounds.2 1 2 1 1
      (execEscrowOps oversizedMilestoneTrace)
      ((execEscrowOps oversizedMilestoneTrace).escrowAccounts 1).get!
      ((execEscrowOps oversizedMilestoneTrace).escrowMilestones (1, 1)).get!
      (by decide) (by decide) (by decide) (by decide) (by decide)

end AdStack
